import Mathlib

/-!
Verification of the capacity-sizing optimization engine.

Shallow embedding of `src/model_development/optimization/capacity/index.py`:
the hourly energy-dispatch simulator (`energy_balance`), the levelized-cost
objective (`cost_func`), the feasibility margin (`demand_constraint`), the
fused penalized objective (`constrained_cost`), and the post-search branch of
`optimize_capacity`.

Modelling conventions:
* Numeric values are rationals (`ℚ`); the Python code computes with IEEE
  doubles, whose rounding is not modelled.
* The source constant `CHARGE_EFFICIENCY = RTE_BATT ** 0.5 = √0.95` is
  irrational, so the functions below take the charge efficiency as an explicit
  parameter `ce`; theorems assume only what their proofs need (`0 < ce`),
  which the source value `√0.95 ≈ 0.9747` satisfies.  Concrete evaluations
  use `39/40 = 0.975`, a rational close to the source value.
* A Python exception (IndexError from reading `E_PV[t]` past its end,
  ZeroDivisionError from `1 / (0 / 43800)`, numpy's shape-mismatch error, or
  `np.min` of an empty array) is modelled as `none`.
* `np.inf` — both the penalty value of `constrained_cost` and the value
  numpy float division produces in `cost_func` when a positive numerator
  meets a zero total load — is modelled as `(⊤ : WithTop ℚ)`; `nan` (zero
  numerator over zero denominator) has no counterpart in `WithTop ℚ` and is
  modelled as `none`.
-/

namespace Capacity

/-- Source constant `SIMULATION_YEARS = 5`. -/
def SIMULATION_YEARS : ℚ := 5

/-- Source constant `RTE_BATT = 0.95`, round trip efficiency of the battery.  The source
derives `CHARGE_EFFICIENCY = RTE_BATT ** 0.5`, an irrational number; it is
passed to the functions below as the parameter `ce`. -/
def RTE_BATT : ℚ := 0.95

/-- Source constant `MAX_DISCHARGE = 0.9`, maximum discharge fraction of the battery. -/
def MAX_DISCHARGE : ℚ := 0.9

/-- Source constant `BATTERY_COST = 140`. -/
def BATTERY_COST : ℚ := 140

/-- Source constant `battery_initial_soc = 1`, initial state of charge fraction. -/
def battery_initial_soc : ℚ := 1

/-- Source constant `PV_COST = 720`. -/
def PV_COST : ℚ := 720

/-- Source constant `DIESEL_COST = 261`. -/
def DIESEL_COST : ℚ := 261

/-- Source constant `DIESEL_FUEL = 0.2`. -/
def DIESEL_FUEL : ℚ := 0.2

/-- One iteration of the `for t in range(len(E_load))` loop body of
`energy_balance`.  Input: the running state of charge `soc` and the hour's
`PV_output[t]` and `E_load[t]`; output: the updated `soc` (which the source
also records as `C_batt[t]`), `E_batt[t]`, and `E_diesel[t]`.

The source performs the `if surplus < -0.0000001` diesel check once after the
charge/discharge branch; here the check is written in each branch with that
branch's final value of `surplus` (in the charge branch `surplus` is
unchanged), which is the same computation. -/
def energy_balance_step (ce battery_capacity diesel_capacity
    max_battery_discharge soc pv_out load : ℚ) : ℚ × ℚ × ℚ :=
  let surplus := pv_out - load
  if surplus > 0 then
    -- Charge battery with surplus, capped at battery capacity
    let soc1 := min (soc + ce * surplus) battery_capacity
    let e_diesel := if surplus < -(1/10000000) then min (-surplus) diesel_capacity else 0
    (soc1, 0, e_diesel)
  else
    -- Discharge battery to meet deficit
    let available := soc - max_battery_discharge
    let discharged := min available (-surplus / ce)
    let soc1 := if discharged > 0 then soc - discharged else soc
    let final_discharge := discharged * ce
    let surplus1 := surplus + final_discharge
    let e_diesel := if surplus1 < -(1/10000000) then min (-surplus1) diesel_capacity else 0
    (soc1, max final_discharge 0, e_diesel)

/-- The hour loop of `energy_balance`, folded over the list of
`(PV_output[t], E_load[t])` pairs.  Returns the `(E_batt, E_diesel, C_batt)`
triple of series; `C_batt[t]` is the state of charge after hour `t`'s
update, exactly as the source records it. -/
def energy_balance_loop (ce battery_capacity diesel_capacity
    max_battery_discharge : ℚ) : ℚ → List (ℚ × ℚ) → List ℚ × List ℚ × List ℚ
  | _, [] => ([], [], [])
  | soc, (pv_out, load) :: ts =>
    let s := energy_balance_step ce battery_capacity diesel_capacity
      max_battery_discharge soc pv_out load
    let r := energy_balance_loop ce battery_capacity diesel_capacity
      max_battery_discharge s.1 ts
    (s.2.1 :: r.1, s.2.2 :: r.2.1, s.1 :: r.2.2)

/-- Embedding of `energy_balance(pv_capacity, battery_capacity,
diesel_capacity, E_load, E_PV)`.  The Python loop runs `for t in range(len(E_load))` and reads
`E_PV[t]`: when `E_PV` is shorter than `E_load` this raises an IndexError,
modelled as `none`; when `E_PV` is longer, the extra entries are silently
ignored (the `zip` truncates to `E_load`'s length). -/
def energy_balance (ce pv_capacity battery_capacity diesel_capacity : ℚ)
    (E_load E_PV : List ℚ) : Option (List ℚ × List ℚ × List ℚ) :=
  if E_load.length ≤ E_PV.length then
    some (energy_balance_loop ce battery_capacity diesel_capacity
      ((1 - MAX_DISCHARGE) * battery_capacity)
      (battery_initial_soc * battery_capacity)
      ((E_PV.map (fun u => pv_capacity * u)).zip E_load))
  else none

/-- The `load_factor` as computed in `cost_func`:
`adjusted_demand = SIMULATION_YEARS * 8760` and
`load_factor = 1 / (len(E_load) / adjusted_demand)`. -/
def load_factor (n : ℕ) : ℚ := 1 / ((n : ℚ) / (SIMULATION_YEARS * 8760))

/-- Embedding of `cost_func(x, E_load, E_PV)`: levelized cost of energy for the candidate.
`none` models a Python exception (empty `E_load` makes `load_factor` raise
ZeroDivisionError; a short `E_PV` makes `energy_balance` raise).  The final
division `total_cost / np.sum(E_load * load_factor)` is numpy float division,
which does not raise on a zero denominator: with a positive numerator it
returns `np.inf`, modelled as `some ⊤`; with a zero numerator it returns
`nan` (and with a negative one `-inf`, impossible for non-negative capacities
and diesel series), both modelled as `none` since neither has a value in
`WithTop ℚ`. -/
def cost_func (ce pv_capacity battery_capacity diesel_capacity : ℚ)
    (E_load E_PV : List ℚ) : Option (WithTop ℚ) :=
  (energy_balance ce pv_capacity battery_capacity diesel_capacity E_load E_PV).bind
    (fun tr =>
      if E_load.length = 0 then none
      else
        let lf := load_factor E_load.length
        let total := pv_capacity * PV_COST + battery_capacity * BATTERY_COST +
          diesel_capacity * DIESEL_COST +
          (tr.2.1.map (fun e => e * lf * DIESEL_FUEL)).sum
        let denom := (E_load.map (fun l => l * lf)).sum
        if denom = 0 then
          if 0 < total then some ⊤ else none
        else some ((total / denom : ℚ) : WithTop ℚ))

/-- Embedding of `demand_constraint(x, E_load, E_PV)`: the feasibility margin
`np.min(E_BAT + E_diesel + pv_capacity * E_PV - E_load)`.  The numpy
elementwise arithmetic requires the series lengths to agree (a mismatch
raises a shape error, modelled as `none`; numpy's size-1 broadcasting corner
is not modelled), and `np.min` of an empty array raises, modelled by
`List.min?` returning `none`. -/
def demand_constraint (ce pv_capacity battery_capacity diesel_capacity : ℚ)
    (E_load E_PV : List ℚ) : Option ℚ :=
  if E_PV.length = E_load.length then
    (energy_balance ce pv_capacity battery_capacity diesel_capacity E_load E_PV).bind
      (fun tr =>
        (List.zipWith (fun s l => s - l)
          (List.zipWith (fun a b => a + b)
            (List.zipWith (fun a b => a + b) tr.1 tr.2.1)
            (E_PV.map (fun u => pv_capacity * u)))
          E_load).min?)
  else none

/-- Embedding of `constrained_cost(x, E_load, E_PV)`: returns `np.inf` (modelled `⊤`)
when the feasibility margin is below `-0.0001`, otherwise the value of
`cost_func` unchanged — which can itself be `np.inf` when the zero-load
corner makes `cost_func` divide a positive numerator by zero. -/
def constrained_cost (ce pv_capacity battery_capacity diesel_capacity : ℚ)
    (E_load E_PV : List ℚ) : Option (WithTop ℚ) :=
  (demand_constraint ce pv_capacity battery_capacity diesel_capacity E_load E_PV).bind
    (fun cv =>
      if cv < -(1/10000) then some ⊤
      else cost_func ce pv_capacity battery_capacity diesel_capacity E_load E_PV)

/-- Result record of the external `scipy.optimize.differential_evolution`
call, as read by `optimize_capacity`: the `success` flag, the best point
`x`, and the engine's diagnostic `message` (an opaque token standing for the
scipy message string — the source never reads it). -/
structure DEResult where
  success : Bool
  x : ℚ × ℚ × ℚ
  message : ℕ
  deriving DecidableEq, Repr

/-- Errors `optimize_capacity` can raise.  `valueErrorOptimizationFailed`
models the source's `raise ValueError("Optimization failed")` — a constant
exception carrying no further data; `indexError` models the exception from
re-running `energy_balance` on mismatched series. -/
inductive PyError where
  | valueErrorOptimizationFailed
  | indexError
  deriving DecidableEq, Repr

/-- The post-search branch of `optimize_capacity`: given the engine's
result record, on `success` it re-runs `energy_balance` on the winning
candidate and returns the capacity triple together with the dispatch trace;
otherwise the source executes `raise ValueError("Optimization failed")`. -/
def optimize_capacity_finish (ce : ℚ) (E_load E_PV : List ℚ) (result : DEResult) :
    Except PyError ((ℚ × ℚ × ℚ) × (List ℚ × List ℚ × List ℚ)) :=
  if result.success then
    match energy_balance ce result.x.1 result.x.2.1 result.x.2.2 E_load E_PV with
    | some tr => .ok (result.x, tr)
    | none => .error .indexError
  else .error .valueErrorOptimizationFailed

/-! ## Helper lemmas -/

/-- One simulator step keeps the state of charge within
`[max_battery_discharge, battery_capacity]`. -/
theorem energy_balance_step_soc_bounds {ce b d mbd soc pv_out load : ℚ}
    (hce : 0 ≤ ce) (hmb : mbd ≤ b) (h1 : mbd ≤ soc) (h2 : soc ≤ b) :
    mbd ≤ (energy_balance_step ce b d mbd soc pv_out load).1 ∧
      (energy_balance_step ce b d mbd soc pv_out load).1 ≤ b := by
  unfold energy_balance_step
  dsimp only
  by_cases hs : pv_out - load > 0
  · rw [if_pos hs]
    exact ⟨le_min (by nlinarith [mul_nonneg hce (le_of_lt hs)]) hmb, min_le_right _ _⟩
  · rw [if_neg hs]
    by_cases hd1 : (soc - mbd) ⊓ (-(pv_out - load) / ce) > 0
    · rw [if_pos hd1]
      have hmin := min_le_left (soc - mbd) (-(pv_out - load) / ce)
      exact ⟨by linarith, by linarith⟩
    · rw [if_neg hd1]
      exact ⟨h1, h2⟩

/-- The whole hour loop keeps every recorded state of charge within
`[max_battery_discharge, battery_capacity]`. -/
theorem energy_balance_loop_cb_bounds {ce b d mbd : ℚ}
    (hce : 0 ≤ ce) (hmb : mbd ≤ b) :
    ∀ (ts : List (ℚ × ℚ)) (soc : ℚ), mbd ≤ soc → soc ≤ b →
      ∀ c ∈ (energy_balance_loop ce b d mbd soc ts).2.2, mbd ≤ c ∧ c ≤ b := by
  intro ts
  induction ts with
  | nil => intro soc _ _ c hc; simp [energy_balance_loop] at hc
  | cons t ts ih =>
    intro soc hs1 hs2 c hc
    obtain ⟨p, l⟩ := t
    simp only [energy_balance_loop, List.mem_cons] at hc
    obtain ⟨hb1, hb2⟩ := @energy_balance_step_soc_bounds ce b d mbd soc p l hce hmb hs1 hs2
    rcases hc with rfl | hc
    · exact ⟨hb1, hb2⟩
    · exact ih _ hb1 hb2 c hc

/-- One simulator step: the updated SOC and the battery-discharge entry do
not depend on the diesel capacity, and the diesel entry is monotone in it. -/
theorem energy_balance_step_d {ce b mbd soc pv_out load : ℚ} (d1 d2 : ℚ) :
    (energy_balance_step ce b d1 mbd soc pv_out load).1 =
        (energy_balance_step ce b d2 mbd soc pv_out load).1 ∧
      (energy_balance_step ce b d1 mbd soc pv_out load).2.1 =
        (energy_balance_step ce b d2 mbd soc pv_out load).2.1 ∧
      (d1 ≤ d2 →
        (energy_balance_step ce b d1 mbd soc pv_out load).2.2 ≤
          (energy_balance_step ce b d2 mbd soc pv_out load).2.2) := by
  unfold energy_balance_step
  dsimp only
  by_cases hs : pv_out - load > 0
  · simp only [if_pos hs]
    refine ⟨trivial, trivial, fun hd => ?_⟩
    by_cases h7 : pv_out - load < -(1/10000000)
    · simp only [if_pos h7]; exact min_le_min (le_refl _) hd
    · simp only [if_neg h7]; exact le_refl _
  · simp only [if_neg hs]
    refine ⟨trivial, trivial, fun hd => ?_⟩
    by_cases h7 : pv_out - load + ((soc - mbd) ⊓ (-(pv_out - load) / ce)) * ce <
        -(1/10000000)
    · simp only [if_pos h7]; exact min_le_min (le_refl _) hd
    · simp only [if_neg h7]; exact le_refl _

/-- The hour loop: battery-discharge and SOC series do not depend on the
diesel capacity, and the diesel series is pointwise monotone in it. -/
theorem energy_balance_loop_d {ce b mbd : ℚ} (d1 d2 : ℚ) :
    ∀ (ts : List (ℚ × ℚ)) (soc : ℚ),
      (energy_balance_loop ce b d1 mbd soc ts).1 =
          (energy_balance_loop ce b d2 mbd soc ts).1 ∧
        (energy_balance_loop ce b d1 mbd soc ts).2.2 =
          (energy_balance_loop ce b d2 mbd soc ts).2.2 ∧
        (d1 ≤ d2 → List.Forall₂ (· ≤ ·)
          (energy_balance_loop ce b d1 mbd soc ts).2.1
          (energy_balance_loop ce b d2 mbd soc ts).2.1) := by
  intro ts
  induction ts with
  | nil =>
    intro soc
    exact ⟨rfl, rfl, fun _ => List.Forall₂.nil⟩
  | cons t ts ih =>
    intro soc
    obtain ⟨p, l⟩ := t
    obtain ⟨h1, h2, h3⟩ := @energy_balance_step_d ce b mbd soc p l d1 d2
    obtain ⟨ih1, ih2, ih3⟩ := ih (energy_balance_step ce b d1 mbd soc p l).1
    simp only [energy_balance_loop]
    rw [← h1]
    exact ⟨by rw [h2, ih1], by rw [ih2, h1], fun hd =>
      List.Forall₂.cons (h3 hd) (ih3 hd)⟩

/-- A `zipWith` with a function monotone in its first argument preserves
pointwise order of the first list. -/
theorem forall2_zipWith_left {f : ℚ → ℚ → ℚ}
    (hf : ∀ a x y, x ≤ y → f x a ≤ f y a) :
    ∀ {x y : List ℚ}, List.Forall₂ (· ≤ ·) x y → ∀ (z : List ℚ),
      List.Forall₂ (· ≤ ·) (List.zipWith f x z) (List.zipWith f y z) := by
  intro x y hxy
  induction hxy with
  | nil => intro z; simp
  | cons hab h ih =>
    intro z
    cases z with
    | nil => simp
    | cons zh zt =>
      exact List.Forall₂.cons (hf zh _ _ hab) (ih zt)

/-- A `zipWith` with a function monotone in its second argument preserves
pointwise order of the second list. -/
theorem forall2_zipWith_right {f : ℚ → ℚ → ℚ}
    (hf : ∀ a x y, x ≤ y → f a x ≤ f a y) :
    ∀ {x y : List ℚ}, List.Forall₂ (· ≤ ·) x y → ∀ (z : List ℚ),
      List.Forall₂ (· ≤ ·) (List.zipWith f z x) (List.zipWith f z y) := by
  intro x y hxy
  induction hxy with
  | nil => intro z; simp
  | cons hab h ih =>
    intro z
    cases z with
    | nil => simp
    | cons zh zt =>
      exact List.Forall₂.cons (hf zh _ _ hab) (ih zt)

/-- Folding `min` over pointwise-ordered lists from ordered seeds preserves
the order. -/
theorem foldl_min_mono : ∀ {x y : List ℚ}, List.Forall₂ (· ≤ ·) x y →
    ∀ {a b : ℚ}, a ≤ b → x.foldl min a ≤ y.foldl min b := by
  intro x y h
  induction h with
  | nil => intro a b hab; simpa using hab
  | cons hab h ih => intro a b h'; exact ih (min_le_min h' hab)

/-- The function `List.min?` is monotone with respect to pointwise order. -/
theorem min?_mono {x y : List ℚ} (h : List.Forall₂ (· ≤ ·) x y) {m1 m2 : ℚ}
    (h1 : x.min? = some m1) (h2 : y.min? = some m2) : m1 ≤ m2 := by
  cases h with
  | nil => simp at h1
  | cons hab h =>
    rw [List.min?_cons'] at h1 h2
    obtain rfl := Option.some.inj h1
    obtain rfl := Option.some.inj h2
    exact foldl_min_mono h hab

/-- With zero battery capacity, zero reserve floor and zero SOC, one step
leaves the SOC at zero and emits zero battery discharge; with zero diesel
capacity it also emits zero diesel. -/
theorem energy_balance_step_zero {ce p l : ℚ} (hce : 0 < ce) :
    energy_balance_step ce 0 0 0 0 p l = (0, 0, 0) := by
  unfold energy_balance_step
  dsimp only
  by_cases hs : p - l > 0
  · rw [if_pos hs]
    have hA : ((0 : ℚ) + ce * (p - l)) ⊓ 0 = 0 :=
      min_eq_right (by nlinarith)
    have hB : ¬(p - l < -(1/10000000 : ℚ)) := by linarith
    rw [hA, if_neg hB]
  · rw [if_neg hs]
    have hx : (0 : ℚ) ≤ -(p - l) / ce := div_nonneg (by linarith) hce.le
    have hA : ((0 : ℚ) - 0) ⊓ (-(p - l) / ce) = 0 := by
      rw [sub_zero]; exact min_eq_left hx
    simp only [hA, lt_irrefl, if_false, gt_iff_lt, zero_mul, add_zero, max_self]
    by_cases hc : p - l < -(1/10000000 : ℚ)
    · rw [if_pos hc, min_eq_right (by linarith : (0:ℚ) ≤ -(p - l))]
    · rw [if_neg hc]

/-- With zero battery and diesel capacity the whole hour loop emits
identically zero series. -/
theorem energy_balance_loop_zero {ce : ℚ} (hce : 0 < ce) :
    ∀ (ts : List (ℚ × ℚ)),
      energy_balance_loop ce 0 0 0 0 ts =
        (ts.map (fun _ => 0), ts.map (fun _ => 0), ts.map (fun _ => 0)) := by
  intro ts
  induction ts with
  | nil => rfl
  | cons t ts ih =>
    obtain ⟨p, l⟩ := t
    simp only [energy_balance_loop, List.map_cons]
    rw [energy_balance_step_zero hce]
    rw [ih]

/-! ## Claim theorems -/

/-- Claim C1: in a deficit hour (`pvOutput[t] - load[t] ≤ 0`), provided the SOC
is at or above the reserve floor `minAllowedSoc = (1 - MAX_DISCHARGE) *
battery_capacity` (which `soc_invariant` guarantees for every reachable
state), the loop body of `energy_balance` discharges exactly
`min(soc - minAllowedSoc, -surplus / ce)` from the SOC, that amount is never
negative, the recorded battery-discharge entry equals the discharged amount
times `ce`, and the diesel decision sees the surplus with the delivered
battery energy added back. -/
theorem deficit_discharge_spec {ce battery_capacity diesel_capacity soc pv_out load : ℚ}
    (hce : 0 < ce)
    (hsoc : (1 - MAX_DISCHARGE) * battery_capacity ≤ soc)
    (hdef : pv_out - load ≤ 0) :
    0 ≤ (soc - (1 - MAX_DISCHARGE) * battery_capacity) ⊓ (-(pv_out - load) / ce) ∧
      energy_balance_step ce battery_capacity diesel_capacity
          ((1 - MAX_DISCHARGE) * battery_capacity) soc pv_out load =
        (soc - (soc - (1 - MAX_DISCHARGE) * battery_capacity) ⊓ (-(pv_out - load) / ce),
          ((soc - (1 - MAX_DISCHARGE) * battery_capacity) ⊓ (-(pv_out - load) / ce)) * ce,
          if pv_out - load +
              ((soc - (1 - MAX_DISCHARGE) * battery_capacity) ⊓
                (-(pv_out - load) / ce)) * ce < -(1/10000000) then
            (-(pv_out - load +
                ((soc - (1 - MAX_DISCHARGE) * battery_capacity) ⊓
                  (-(pv_out - load) / ce)) * ce)) ⊓ diesel_capacity
          else 0) := by
  have hq : (0 : ℚ) ≤ -(pv_out - load) / ce := div_nonneg (by linarith) hce.le
  have hdch : 0 ≤ (soc - (1 - MAX_DISCHARGE) * battery_capacity) ⊓
      (-(pv_out - load) / ce) := le_min (by linarith) hq
  refine ⟨hdch, ?_⟩
  unfold energy_balance_step
  dsimp only
  rw [if_neg (by linarith : ¬(pv_out - load > 0))]
  by_cases hpos : (soc - (1 - MAX_DISCHARGE) * battery_capacity) ⊓
      (-(pv_out - load) / ce) > 0
  · rw [if_pos hpos, max_eq_left (mul_nonneg hdch hce.le)]
  · rw [if_neg hpos]
    have h0 : (soc - (1 - MAX_DISCHARGE) * battery_capacity) ⊓
        (-(pv_out - load) / ce) = 0 := le_antisymm (not_lt.mp hpos) hdch
    simp only [h0, zero_mul, sub_zero, add_zero, max_self]

/-- Claim C2: for every candidate with non-negative battery capacity and every
pair of equal-length non-negative input series, every state of charge
recorded by `energy_balance` lies between the reserve floor
`(1 - MAX_DISCHARGE) * battery_capacity` and `battery_capacity` (the SOC
starts at `battery_initial_soc * battery_capacity = battery_capacity`). -/
theorem soc_invariant {ce pv_capacity battery_capacity diesel_capacity : ℚ}
    {E_load E_PV : List ℚ}
    (hce : 0 < ce) (hb : 0 ≤ battery_capacity)
    (hlen : E_PV.length = E_load.length)
    (_hload : ∀ x ∈ E_load, 0 ≤ x) (_hpv : ∀ x ∈ E_PV, 0 ≤ x) :
    ∀ tr, energy_balance ce pv_capacity battery_capacity diesel_capacity
        E_load E_PV = some tr →
      ∀ c ∈ tr.2.2,
        (1 - MAX_DISCHARGE) * battery_capacity ≤ c ∧ c ≤ battery_capacity := by
  intro tr htr c hc
  have hle : E_load.length ≤ E_PV.length := hlen.ge
  unfold energy_balance at htr
  rw [if_pos hle] at htr
  obtain rfl : _ = tr := Option.some.inj htr
  have hmb : (1 - MAX_DISCHARGE) * battery_capacity ≤ battery_capacity := by
    unfold MAX_DISCHARGE; nlinarith
  have hs1 : (1 - MAX_DISCHARGE) * battery_capacity ≤
      battery_initial_soc * battery_capacity := by
    unfold MAX_DISCHARGE battery_initial_soc; nlinarith
  have hs2 : battery_initial_soc * battery_capacity ≤ battery_capacity := by
    unfold battery_initial_soc; nlinarith
  exact energy_balance_loop_cb_bounds hce.le hmb _ _ hs1 hs2 c hc

/-- Claim C9: with `battery_capacity = 0` and `diesel_capacity = 0`, the
battery-discharge and diesel-output series produced by `energy_balance` are
identically zero. -/
theorem zero_capacity_trace {ce pv_capacity : ℚ} {E_load E_PV : List ℚ}
    (hce : 0 < ce) (hlen : E_PV.length = E_load.length)
    (_hload : ∀ x ∈ E_load, 0 ≤ x) (_hpv : ∀ x ∈ E_PV, 0 ≤ x) :
    ∀ tr, energy_balance ce pv_capacity 0 0 E_load E_PV = some tr →
      (∀ x ∈ tr.1, x = 0) ∧ (∀ x ∈ tr.2.1, x = 0) := by
  intro tr htr
  have hle : E_load.length ≤ E_PV.length := hlen.ge
  unfold energy_balance at htr
  rw [if_pos hle] at htr
  obtain rfl : _ = tr := Option.some.inj htr
  rw [mul_zero, mul_zero, energy_balance_loop_zero hce]
  constructor <;>
    · intro x hx
      obtain ⟨a, _, ha⟩ := List.mem_map.mp hx
      exact ha.symm

/-- Claim C5: the feasibility margin computed by `demand_constraint` is
monotone non-decreasing in the diesel capacity, with PV and battery held
fixed. -/
theorem margin_mono_diesel {ce pv_capacity battery_capacity d1 d2 : ℚ}
    {E_load E_PV : List ℚ} {m1 m2 : ℚ}
    (hd : d1 ≤ d2)
    (h1 : demand_constraint ce pv_capacity battery_capacity d1 E_load E_PV = some m1)
    (h2 : demand_constraint ce pv_capacity battery_capacity d2 E_load E_PV = some m2) :
    m1 ≤ m2 := by
  unfold demand_constraint at h1 h2
  by_cases hl : E_PV.length = E_load.length
  · rw [if_pos hl] at h1 h2
    have hle : E_load.length ≤ E_PV.length := hl.ge
    unfold energy_balance at h1 h2
    rw [if_pos hle, Option.some_bind] at h1 h2
    obtain ⟨g1, g2, g3⟩ := @energy_balance_loop_d ce battery_capacity
      ((1 - MAX_DISCHARGE) * battery_capacity) d1 d2
      ((E_PV.map (fun u => pv_capacity * u)).zip E_load)
      (battery_initial_soc * battery_capacity)
    refine min?_mono ?_ h1 h2
    rw [g1]
    refine forall2_zipWith_left (fun a x y hxy => sub_le_sub_right hxy a) ?_ E_load
    refine forall2_zipWith_left (fun a x y hxy => add_le_add_right hxy a) ?_ _
    exact forall2_zipWith_right (fun a x y hxy => add_le_add_left hxy a) (g3 hd) _
  · rw [if_neg hl] at h1
    cases h1

/-- Claim C3 counterexample: at `load = [0]`, `unitPV = [0]`, candidate
`(1, 0, 0)` — equal-length non-negative series — the feasibility margin is
`0`, not below the tolerance `-0.0001`, yet `constrained_cost` returns
`np.inf`: `cost_func` divides the positive numerator `720` by the zero
total load, so the claimed "returns positive infinity only if the margin is
below the tolerance" fails. -/
theorem constrained_cost_penalty_counterexample :
    demand_constraint (39/40) 1 0 0 [0] [0] = some 0 ∧
      ¬((0 : ℚ) < -(1/10000)) ∧
      constrained_cost (39/40) 1 0 0 [0] [0] = some ⊤ := by
  norm_num [constrained_cost, cost_func, demand_constraint, energy_balance,
    energy_balance_loop, energy_balance_step, load_factor, MAX_DISCHARGE,
    battery_initial_soc, SIMULATION_YEARS, PV_COST, BATTERY_COST, DIESEL_COST,
    DIESEL_FUEL, min_def, max_def, List.min?_cons']

/-- Claim C3 amended: whenever the feasibility margin exists, the fused
objective `constrained_cost` returns `⊤` (the source's `np.inf`) exactly
when the margin is strictly below `-0.0001` **or** `cost_func` itself
returns `np.inf` (the zero-total-load corner); and whenever the margin is
not below the tolerance it returns exactly the value of `cost_func`. -/
theorem constrained_cost_penalty {ce pv_capacity battery_capacity diesel_capacity : ℚ}
    {E_load E_PV : List ℚ} {m : ℚ}
    (hm : demand_constraint ce pv_capacity battery_capacity diesel_capacity
      E_load E_PV = some m) :
    (constrained_cost ce pv_capacity battery_capacity diesel_capacity E_load E_PV =
        some ⊤ ↔
      (m < -(1/10000) ∨
        cost_func ce pv_capacity battery_capacity diesel_capacity E_load E_PV =
          some ⊤)) ∧
      (¬ m < -(1/10000) →
        constrained_cost ce pv_capacity battery_capacity diesel_capacity E_load E_PV =
          cost_func ce pv_capacity battery_capacity diesel_capacity E_load E_PV) := by
  unfold constrained_cost
  rw [hm, Option.some_bind]
  by_cases hc : m < -(1/10000)
  · rw [if_pos hc]
    exact ⟨⟨fun _ => Or.inl hc, fun _ => rfl⟩, fun h => absurd hc h⟩
  · rw [if_neg hc]
    refine ⟨⟨fun h => Or.inr h, fun h => ?_⟩, fun _ => rfl⟩
    rcases h with h | h
    · exact absurd h hc
    · exact h

/-- Distributing a constant factor out of a mapped sum. -/
theorem sum_map_mul (l : List ℚ) (r : ℚ) :
    (l.map (fun x => x * r)).sum = l.sum * r := by
  induction l with
  | nil => simp
  | cons a l ih => simp [ih, add_mul]

/-- Claim C4: for equal-length series of length `N ≥ 1` (and a non-zero
denominator, i.e. non-zero total load), `cost_func` returns exactly
`(pv·PV_COST + batt·BATTERY_COST + diesel·DIESEL_COST +
Σ E_diesel[t]·lf·DIESEL_FUEL) / (Σ load[t]·lf)` with
`lf = SIMULATION_YEARS * 8760 / N`, where `E_diesel` is the diesel series
produced by `energy_balance` for the candidate. -/
theorem cost_func_lcoe {ce pv_capacity battery_capacity diesel_capacity : ℚ}
    {E_load E_PV : List ℚ}
    (hN : 1 ≤ E_load.length)
    (hden : (E_load.map (fun l =>
      l * (SIMULATION_YEARS * 8760 / E_load.length))).sum ≠ 0) :
    ∀ tr, energy_balance ce pv_capacity battery_capacity diesel_capacity
        E_load E_PV = some tr →
      cost_func ce pv_capacity battery_capacity diesel_capacity E_load E_PV =
        some ((((pv_capacity * PV_COST + battery_capacity * BATTERY_COST +
            diesel_capacity * DIESEL_COST +
            (tr.2.1.map (fun e =>
              e * (SIMULATION_YEARS * 8760 / E_load.length) * DIESEL_FUEL)).sum) /
          (E_load.map (fun l =>
            l * (SIMULATION_YEARS * 8760 / E_load.length))).sum : ℚ) : WithTop ℚ)) := by
  intro tr htr
  have hlf : load_factor E_load.length =
      SIMULATION_YEARS * 8760 / E_load.length := by
    unfold load_factor
    rw [one_div_div]
  unfold cost_func
  rw [htr, Option.some_bind, if_neg (by omega : ¬E_load.length = 0)]
  dsimp only
  rw [hlf, if_neg hden]

/-- Claim C10: the battery-discharge series and the SOC series produced by
`energy_balance` do not depend on the diesel capacity. -/
theorem battery_trace_diesel_independent (ce pv_capacity battery_capacity d1 d2 : ℚ)
    (E_load E_PV : List ℚ) :
    (energy_balance ce pv_capacity battery_capacity d1 E_load E_PV).map
        (fun tr => (tr.1, tr.2.2)) =
      (energy_balance ce pv_capacity battery_capacity d2 E_load E_PV).map
        (fun tr => (tr.1, tr.2.2)) := by
  unfold energy_balance
  by_cases hle : E_load.length ≤ E_PV.length
  · rw [if_pos hle, if_pos hle]
    obtain ⟨h1, h2, _⟩ := @energy_balance_loop_d ce battery_capacity
      ((1 - MAX_DISCHARGE) * battery_capacity) d1 d2
      ((E_PV.map (fun u => pv_capacity * u)).zip E_load)
      (battery_initial_soc * battery_capacity)
    simp only [Option.map_some']
    rw [h1, h2]
  · rw [if_neg hle, if_neg hle]


/-- Claim C6 counterexample: a negative load value is not rejected — the
simulator runs to completion on it and the fused objective returns an
ordinary finite value, contradicting "rejected before any simulation
begins". -/
theorem no_validation_counterexample :
    energy_balance (39/40) 1 0 0 [-5] [0] = some ([0], [0], [0]) ∧
      constrained_cost (39/40) 1 0 0 [-5] [0] =
        some ((-(6/1825) : ℚ) : WithTop ℚ) := by
  norm_num [constrained_cost, cost_func, demand_constraint, energy_balance,
    energy_balance_loop, energy_balance_step, load_factor, MAX_DISCHARGE,
    battery_initial_soc, SIMULATION_YEARS, PV_COST, BATTERY_COST, DIESEL_COST,
    DIESEL_FUEL, min_def, max_def, List.min?_cons']

/-- Claim C6 amended: `optimize_capacity` performs no input validation: a
negative load entry is accepted and simulated (the objective returns a
finite value), and PV entries beyond the load length are silently ignored
by the simulator (silent truncation). -/
theorem no_validation :
    constrained_cost (39/40) 1 0 0 [-5] [0] =
        some ((-(6/1825) : ℚ) : WithTop ℚ) ∧
      energy_balance (39/40) 1 0 0 [5] [2, 99] =
        energy_balance (39/40) 1 0 0 [5] [2, 0] ∧
      energy_balance (39/40) 1 0 0 [5] [2, 99] ≠ none := by
  refine ⟨?_, ?_, ?_⟩
  · norm_num [constrained_cost, cost_func, demand_constraint, energy_balance,
      energy_balance_loop, energy_balance_step, load_factor, MAX_DISCHARGE,
      battery_initial_soc, SIMULATION_YEARS, PV_COST, BATTERY_COST, DIESEL_COST,
      DIESEL_FUEL, min_def, max_def, List.min?_cons']
  · norm_num [energy_balance, energy_balance_loop, energy_balance_step,
      MAX_DISCHARGE, battery_initial_soc, min_def, max_def]
  · intro hcontra
    norm_num [energy_balance, energy_balance_loop, energy_balance_step,
      MAX_DISCHARGE, battery_initial_soc, min_def, max_def] at hcontra
    exact Option.noConfusion hcontra

/-- Claim C7 counterexample: on non-success the raised failure is the constant
`ValueError("Optimization failed")`, identical for different best candidates
and different engine messages — so it carries neither the last best-known
candidate nor the engine's diagnostic message. -/
theorem optimization_failure_counterexample :
    optimize_capacity_finish (39/40) [1] [1] ⟨false, (1, 2, 3), 0⟩ =
        Except.error PyError.valueErrorOptimizationFailed ∧
      optimize_capacity_finish (39/40) [1] [1] ⟨false, (7, 8, 9), 1⟩ =
        Except.error PyError.valueErrorOptimizationFailed :=
  ⟨rfl, rfl⟩

/-- Claim C7 amended: when the search reports non-success the optimizer raises
the fixed `ValueError("Optimization failed")` — carrying neither the
candidate nor the engine's message — and in particular never silently
returns a zero or default capacity triple. -/
theorem optimization_failure_fixed {ce : ℚ} {E_load E_PV : List ℚ} {r : DEResult}
    (hr : r.success = false) :
    optimize_capacity_finish ce E_load E_PV r =
      Except.error PyError.valueErrorOptimizationFailed := by
  unfold optimize_capacity_finish
  rw [hr]
  rfl

/-- Witness for `optimization_failure_fixed`. -/
theorem optimization_failure_fixed_witness :
    ((⟨false, (1, 2, 3), 0⟩ : DEResult).success = false) ∧
      optimize_capacity_finish (39/40) [1] [1] ⟨false, (1, 2, 3), 0⟩ =
        Except.error PyError.valueErrorOptimizationFailed :=
  ⟨rfl, optimization_failure_fixed rfl⟩

/-- Claim C8 counterexample: the all-zero load series lies in the declared
domain (equal lengths, length ≥ 1, non-negative entries), yet the cost
evaluator's denominator `np.sum(E_load * load_factor)` is zero and the
division returns the non-finite `np.inf` (`⊤`), not a finite value. -/
theorem totality_counterexample :
    cost_func (39/40) 1 0 0 [0] [0] = some ⊤ ∧
      (([0] : List ℚ).map (fun l => l * load_factor 1)).sum = 0 := by
  norm_num [cost_func, energy_balance, energy_balance_loop,
    energy_balance_step, load_factor, MAX_DISCHARGE, battery_initial_soc,
    SIMULATION_YEARS, PV_COST, min_def, max_def]

/-- Claim C8 amended: `energy_balance` is total whenever `E_PV` is at least as
long as `E_load`, and `cost_func` returns a finite value provided
additionally the total load is positive (which rules out the zero
denominator). -/
theorem totality_amended {ce pv_capacity battery_capacity diesel_capacity : ℚ}
    {E_load E_PV : List ℚ}
    (hlen : E_PV.length = E_load.length) (hN : 1 ≤ E_load.length)
    (_hload : ∀ x ∈ E_load, 0 ≤ x) (hsum : 0 < E_load.sum) :
    (energy_balance ce pv_capacity battery_capacity diesel_capacity
        E_load E_PV).isSome ∧
      ∃ c : ℚ, cost_func ce pv_capacity battery_capacity diesel_capacity
        E_load E_PV = some ((c : ℚ) : WithTop ℚ) := by
  have heb : energy_balance ce pv_capacity battery_capacity diesel_capacity
      E_load E_PV =
      some (energy_balance_loop ce battery_capacity diesel_capacity
        ((1 - MAX_DISCHARGE) * battery_capacity)
        (battery_initial_soc * battery_capacity)
        ((E_PV.map (fun u => pv_capacity * u)).zip E_load)) := by
    unfold energy_balance
    rw [if_pos hlen.ge]
  constructor
  · rw [heb]; rfl
  · unfold cost_func
    rw [heb, Option.some_bind, if_neg (by omega : ¬E_load.length = 0)]
    dsimp only
    have hlfpos : 0 < load_factor E_load.length := by
      unfold load_factor SIMULATION_YEARS
      have hN' : (0 : ℚ) < (E_load.length : ℚ) := by
        have h0 : 0 < E_load.length := hN
        exact_mod_cast h0
      exact one_div_pos.mpr (div_pos hN' (by norm_num))
    have hdeq : (E_load.map (fun l => l * load_factor E_load.length)).sum =
        E_load.sum * load_factor E_load.length := sum_map_mul _ _
    rw [if_neg (by rw [hdeq]; exact (mul_pos hsum hlfpos).ne')]
    exact ⟨_, rfl⟩

/-- Witness for `totality_amended`. -/
theorem totality_amended_witness :
    (([0] : List ℚ).length = ([1] : List ℚ).length) ∧
      (1 ≤ ([1] : List ℚ).length) ∧
      (∀ x ∈ ([1] : List ℚ), 0 ≤ x) ∧ ((0 : ℚ) < ([1] : List ℚ).sum) ∧
      ((energy_balance (39/40) 0 0 0 [1] [0]).isSome ∧
        ∃ c : ℚ, cost_func (39/40) 0 0 0 [1] [0] = some ((c : ℚ) : WithTop ℚ)) :=
  ⟨rfl, by decide, by norm_num, by norm_num,
    @totality_amended (39/40) 0 0 0 [1] [0] rfl (by decide)
      (by norm_num) (by norm_num)⟩

/-- Witness for `deficit_discharge_spec`. -/
theorem deficit_discharge_spec_witness :
    ((0 : ℚ) < 39/40) ∧ ((1 - MAX_DISCHARGE) * 10 ≤ (10 : ℚ)) ∧
      ((0 : ℚ) - 5 ≤ 0) ∧
      (0 ≤ ((10 : ℚ) - (1 - MAX_DISCHARGE) * 10) ⊓ (-((0 : ℚ) - 5) / (39/40))) :=
  ⟨by norm_num, by norm_num [MAX_DISCHARGE], by norm_num,
    (@deficit_discharge_spec (39/40) 10 3 10 0 5 (by norm_num)
      (by norm_num [MAX_DISCHARGE]) (by norm_num)).1⟩

/-- Witness for `soc_invariant`. -/
theorem soc_invariant_witness :
    (((0 : ℚ) < 39/40) ∧ ((0 : ℚ) ≤ 10) ∧
        (([2, 0] : List ℚ).length = ([5, 5] : List ℚ).length) ∧
        (∀ x ∈ ([5, 5] : List ℚ), 0 ≤ x) ∧ (∀ x ∈ ([2, 0] : List ℚ), 0 ≤ x)) ∧
      ((1 - MAX_DISCHARGE) * 10 ≤ (190/39 : ℚ) ∧ (190/39 : ℚ) ≤ 10) :=
  ⟨⟨by norm_num, by norm_num, rfl, by norm_num, by norm_num⟩,
    @soc_invariant (39/40) 10 10 0 [5, 5] [2, 0] (by norm_num) (by norm_num)
      rfl (by norm_num) (by norm_num)
      ([0, 5], [0, 0], [10, 190/39])
      (by norm_num [energy_balance, energy_balance_loop, energy_balance_step,
        MAX_DISCHARGE, battery_initial_soc, min_def, max_def])
      (190/39) (by norm_num)⟩

/-- Witness for `zero_capacity_trace`. -/
theorem zero_capacity_trace_witness :
    ((0 : ℚ) < 39/40) ∧
      ((∀ x ∈ ([0, 0] : List ℚ), x = 0) ∧ (∀ x ∈ ([0, 0] : List ℚ), x = 0)) :=
  ⟨by norm_num,
    @zero_capacity_trace (39/40) 10 [5, 5] [2, 0] (by norm_num) rfl
      (by norm_num) (by norm_num) ([0, 0], [0, 0], [0, 0])
      (by norm_num [energy_balance, energy_balance_loop, energy_balance_step,
        MAX_DISCHARGE, battery_initial_soc, min_def, max_def])⟩

/-- Witness for `margin_mono_diesel`. -/
theorem margin_mono_diesel_witness :
    ((0 : ℚ) ≤ 5) ∧
      (demand_constraint (39/40) 0 0 0 [10] [0] = some (-10)) ∧
      (demand_constraint (39/40) 0 0 5 [10] [0] = some (-5)) ∧
      ((-10 : ℚ) ≤ -5) :=
  ⟨by norm_num,
    by norm_num [demand_constraint, energy_balance, energy_balance_loop,
      energy_balance_step, MAX_DISCHARGE, battery_initial_soc, min_def,
      max_def, List.min?_cons'],
    by norm_num [demand_constraint, energy_balance, energy_balance_loop,
      energy_balance_step, MAX_DISCHARGE, battery_initial_soc, min_def,
      max_def, List.min?_cons'],
    @margin_mono_diesel (39/40) 0 0 0 5 [10] [0] (-10) (-5) (by norm_num)
      (by norm_num [demand_constraint, energy_balance, energy_balance_loop,
        energy_balance_step, MAX_DISCHARGE, battery_initial_soc, min_def,
        max_def, List.min?_cons'])
      (by norm_num [demand_constraint, energy_balance, energy_balance_loop,
        energy_balance_step, MAX_DISCHARGE, battery_initial_soc, min_def,
        max_def, List.min?_cons'])⟩

/-- Witness for `constrained_cost_penalty`. -/
theorem constrained_cost_penalty_witness :
    (demand_constraint (39/40) 0 0 0 [10] [0] = some (-10)) ∧
      ((constrained_cost (39/40) 0 0 0 [10] [0] = some ⊤ ↔
          ((-10 : ℚ) < -(1/10000) ∨
            cost_func (39/40) 0 0 0 [10] [0] = some ⊤)) ∧
        (¬(-10 : ℚ) < -(1/10000) →
          constrained_cost (39/40) 0 0 0 [10] [0] =
            cost_func (39/40) 0 0 0 [10] [0])) :=
  ⟨by norm_num [demand_constraint, energy_balance, energy_balance_loop,
      energy_balance_step, MAX_DISCHARGE, battery_initial_soc, min_def,
      max_def, List.min?_cons'],
    @constrained_cost_penalty (39/40) 0 0 0 [10] [0] (-10)
      (by norm_num [demand_constraint, energy_balance, energy_balance_loop,
        energy_balance_step, MAX_DISCHARGE, battery_initial_soc, min_def,
        max_def, List.min?_cons'])⟩

/-- Witness for `cost_func_lcoe`. -/
theorem cost_func_lcoe_witness :
    (1 ≤ ([1] : List ℚ).length) ∧
      ((([1] : List ℚ).map (fun l =>
        l * (SIMULATION_YEARS * 8760 / ([1] : List ℚ).length))).sum ≠ 0) ∧
      cost_func (39/40) 0 0 0 [1] [0] =
        some (((0 : ℚ) * PV_COST + 0 * BATTERY_COST + 0 * DIESEL_COST +
            (([0] : List ℚ).map (fun e =>
              e * (SIMULATION_YEARS * 8760 / ([1] : List ℚ).length) *
                DIESEL_FUEL)).sum) /
          (([1] : List ℚ).map (fun l =>
            l * (SIMULATION_YEARS * 8760 / ([1] : List ℚ).length))).sum) :=
  ⟨by decide, by norm_num [SIMULATION_YEARS],
    @cost_func_lcoe (39/40) 0 0 0 [1] [0] (by decide)
      (by norm_num [SIMULATION_YEARS]) ([0], [0], [0])
      (by norm_num [energy_balance, energy_balance_loop, energy_balance_step,
        MAX_DISCHARGE, battery_initial_soc, min_def, max_def])⟩

end Capacity
